import Mathlib

/-!
Verification of the CHIME repository's token-refresh / quota-aggregation flow.

Shallow embedding of:
  * `src/core/google_api.py` (`_get_social_app`, `_refresh_access_token`,
    `get_storage_quota`) — namespace `GApi`.  HTTP calls and credential saves
    are recorded in an explicit effect trace; raised Python exceptions become
    `Except.error` values.
  * `src/core/views.py` (`_humanize_bytes`, the second — effective — definition
    of `_build_drive_quota_for_account`, and the second definition of
    `dashboard`) — namespace `Views`.

Python `views.py` and `urls.py` each define some names twice; the later
definition wins at module level, so the effective fetcher is the second
`_build_drive_quota_for_account` (the one that attaches `quota_raw`) and the
effective dashboard is the second `dashboard` (the one that aggregates).

Numeric conventions: Python ints are `Int`; float arithmetic
(`round(x)`, `f-string .1f` formatting, `n / 1024.0`) is abstracted to exact
rational arithmetic with round-half-to-even, which is Python's rounding mode
for `round` and for `format`.  `int(s)` on strings is modelled for canonical
decimal literals (optional sign, decimal digits).
-/

/-- Value of a decimal digit character, if it is one. -/
def digitVal? (c : Char) : Option Nat :=
  if c.isDigit then some (c.toNat - 48) else none

/-- Parse a nonempty string of decimal digits. -/
def parseDigits : List Char → Option Nat
  | [] => none
  | cs => cs.foldlM (fun acc c => (digitVal? c).map (fun d => acc * 10 + d)) 0

/-- Python `int(s)` for canonical decimal string literals: optional sign then
decimal digits; anything else raises `ValueError` (modelled as `none`). -/
def pyInt? (s : String) : Option Int :=
  match s.toList with
  | '-' :: rest => (parseDigits rest).map (fun n => -(n : Int))
  | '+' :: rest => (parseDigits rest).map (fun n => (n : Int))
  | cs => (parseDigits cs).map (fun n => (n : Int))

/-- Round-half-to-even of the exact rational `num / den` (`den ≠ 0`): the
rounding used by Python `round` and by `.1f` float formatting.  The float
expressions of the source are abstracted to their exact rational values,
carried as an integer numerator and denominator. -/
def round_half_even_div (num den : Int) : Int :=
  let n : Int := if den < 0 then -num else num
  let d : Int := if den < 0 then -den else den
  let f : Int := Int.fdiv n d
  let r2 : Int := 2 * (n - f * d)
  if r2 < d then f
  else if d < r2 then f + 1
  else if f % 2 = 0 then f else f + 1

/-- Python f-string `.1f` formatting of the exact rational `num / den`
(one decimal, round half to even). -/
def fmt_fixed1_div (num den : Int) : String :=
  let t : Int := round_half_even_div (num * 10) den
  let sign : String := if t < 0 then "-" else ""
  let a : Nat := t.natAbs
  sign ++ toString (a / 10) ++ "." ++ toString (a % 10)

/-- Python truthiness of an optional string (`None` and `""` are falsy). -/
def optStrTruthy : Option String → Bool
  | none => false
  | some s => s ≠ ""

/-- Python `a or b` where `a` is an optional string and `b` a string. -/
def pyOrStr (a : Option String) (b : String) : String :=
  match a with
  | some s => if s = "" then b else s
  | none => b

/-- Python `a or b` where both operands are optional strings. -/
def pyOrOpt (a b : Option String) : Option String :=
  match a with
  | some s => if s = "" then b else some s
  | none => b

/-- An allauth `SocialApp` row (provider config). -/
structure SocialApp where
  client_id : String
  secret : String
deriving Repr, DecidableEq

/-- An allauth `SocialToken` row: `token` is the access token and
`token_secret` the refresh token (empty string = no refresh token, which is
falsy in the Python checks).  `expires_at` is omitted: `config/settings.py`
has no `timedelta` attribute, so line 56 of `google_api.py` never changes it. -/
structure SocialToken where
  token : String
  token_secret : String
deriving Repr, DecidableEq

/-- The `storageQuota` object of the Drive `about` response; each field may be
absent, and is reported as a decimal string of bytes when present. -/
structure StorageQuota where
  limit : Option String
  usage : Option String
deriving Repr, DecidableEq

/-- A parsed Drive `about` JSON document (`storageQuota` key may be absent). -/
structure AboutJson where
  storageQuota : Option StorageQuota
deriving Repr, DecidableEq

namespace Views

/-- Environment of one `_build_drive_quota_for_account` call, abstracting the
external collaborators: library availability, the token store row for the
account, the list of `SocialApp` rows with `provider="google"` (the table the
`SocialApp.objects.get` lookup runs over — nothing in the code keeps it to at
most one row), the external google-auth credential state (`creds.expired`),
the outcome of `creds.refresh(Request())` (exception message, or the new
`creds.token`), and the outcome of `service.about().get(...).execute()`
(exception message, or the parsed JSON). -/
structure VEnv where
  googleLibs : Bool
  storedToken : Option SocialToken
  apps : List SocialApp
  credsExpired : Bool
  refreshOutcome : Except String String
  driveOutcome : Except String AboutJson
deriving Repr

/-- The two exceptions Django `QuerySet.get` can raise: no matching row, or
more than one matching row. -/
inductive GetExc where
  | doesNotExist
  | multipleObjectsReturned
deriving Repr, DecidableEq

/-- Django semantics of `SocialApp.objects.get(provider="google")`: exactly
one matching row is returned; zero rows raise `DoesNotExist` and two or more
raise `MultipleObjectsReturned`. -/
def objects_get_google_app : List SocialApp → Except GetExc SocialApp
  | [] => .error .doesNotExist
  | [a] => .ok a
  | _ :: _ :: _ => .error .multipleObjectsReturned

/-- The unit list of `views._humanize_bytes`. -/
def hbUnits : List String := ["B", "KB", "MB", "GB", "TB", "PB"]

/-- The division loop of `_humanize_bytes`
(`while n >= 1024 and i < len(units) - 1: n /= 1024.0; i += 1`), carrying the
exact rational value of the float `n` as numerator over denominator `1024^i`;
five units of fuel cover its at most five iterations (`i` grows each round and
the guard needs `i < 5`). -/
def hbLoop : Nat → Int → Int → Nat → Int × Int × Nat
  | 0, num, den, i => (num, den, i)
  | fuel + 1, num, den, i =>
    if 1024 * den ≤ num ∧ i < 5 then hbLoop fuel num (den * 1024) (i + 1)
    else (num, den, i)

/-- Embedding of `views._humanize_bytes` (`None` means unlimited).  On the
`i = 0` branch, Python `int(n)` truncates toward zero, which is `Int.div`. -/
def humanize_bytes : Option Int → String
  | none => "unlimited"
  | some n =>
    let p := hbLoop 5 n 1 0
    let u := hbUnits.getD p.2.2 ""
    if p.2.2 = 0 then toString (Int.tdiv p.1 p.2.1) ++ " " ++ u
    else fmt_fixed1_div p.1 p.2.1 ++ " " ++ u

/-- The raw-bytes sub-dict `quota["quota_raw"]` (`limit`/`remaining` are
`None` for unlimited). -/
structure QuotaRaw where
  usage : Int
  limit : Option Int
  remaining : Option Int
deriving Repr, DecidableEq

/-- The quota dict built by the effective `_build_drive_quota_for_account`:
humanized strings plus the raw-bytes dict used by aggregation. -/
structure Quota where
  usage : String
  limit : String
  remaining : Option String
  quota_raw : QuotaRaw
deriving Repr, DecidableEq

/-- Python `int(sq.get(key, 0))`: absent key defaults to the int `0`; a present
value is a string fed to `int`, whose parse failure raises `ValueError`. -/
def pyIntOf : Option String → Except String Int
  | none => .ok 0
  | some s =>
    match pyInt? s with
    | some v => .ok v
    | none => .error ("invalid literal for int() with base 10: " ++ s)

/-- The refresh branch inside the `try` block:
`if creds.expired and creds.refresh_token: creds.refresh(Request()); ...`.
An exception from `creds.refresh` propagates to the enclosing `except`.
The conditional `tok.save(update_fields=["token"])` only mutates the external
token store and nothing downstream of this function reads it back. -/
def refresh_step (env : VEnv) (tok : SocialToken) : Except String Unit :=
  if env.credsExpired = true ∧ tok.token_secret ≠ "" then
    match env.refreshOutcome with
    | .error e => .error e
    | .ok _ => .ok ()
  else .ok ()

/-- Success-path construction of the quota dict from the parsed ints:
`limit_b = int(...) or None`, `remaining_b = (limit_b - usage_b) if limit_b
else None`, then the humanized fields and `quota_raw`. -/
def mk_quota (usage_b limit_b0 : Int) : Quota :=
  let limit_b : Option Int := if limit_b0 = 0 then none else some limit_b0
  let remaining_b : Option Int :=
    match limit_b with
    | some l => if l = 0 then none else some (l - usage_b)
    | none => none
  { usage := humanize_bytes (some usage_b)
    limit :=
      match limit_b with
      | some l => if l = 0 then "unlimited" else humanize_bytes (some l)
      | none => "unlimited"
    remaining := remaining_b.map (fun r => humanize_bytes (some r))
    quota_raw := { usage := usage_b, limit := limit_b, remaining := remaining_b } }

/-- The local `sq = about.get("storageQuota", {})`: a missing key yields the
empty dict, whose field lookups all miss. -/
def sq_of (about : AboutJson) : StorageQuota :=
  about.storageQuota.getD { usage := none, limit := none }

/-- Body of the big `try` block of the effective
`_build_drive_quota_for_account`: refresh branch, Drive call, field parsing;
any raised exception is the `Except.error` carrying `str(e)`. -/
def try_body (env : VEnv) (tok : SocialToken) : Except String Quota :=
  match refresh_step env tok with
  | .error e => .error e
  | .ok _ =>
    match env.driveOutcome with
    | .error e => .error e
    | .ok about =>
      match pyIntOf (sq_of about).usage with
      | .error e => .error e
      | .ok usage_b =>
        match pyIntOf (sq_of about).limit with
        | .error e => .error e
        | .ok limit_b0 => .ok (mk_quota usage_b limit_b0)

/-- Outcome of one call to `_build_drive_quota_for_account`: a normal return
of the `(quota_dict, error_message)` pair, or an uncaught Python exception
(named by the constructor argument) escaping the function. -/
inductive FetchOutcome where
  | returns (quota : Option Quota) (error : Option String)
  | raises (exc : String)
deriving Repr, DecidableEq

/-- Embedding of the effective (second) `views._build_drive_quota_for_account`.
The `SocialApp.objects.get(provider="google")` call sits in a `try` that
catches only `SocialApp.DoesNotExist`; a `MultipleObjectsReturned` from a
duplicate Google app row is uncaught and escapes the function. -/
def build_drive_quota_for_account (env : VEnv) : FetchOutcome :=
  if env.googleLibs = false then
    .returns none (some ("Google API client not installed. Run: pip install " ++
      "google-api-python-client google-auth google-auth-httplib2 google-auth-oauthlib"))
  else
    match env.storedToken with
    | none => .returns none (some "No OAuth token stored for this account.")
    | some tok =>
      match objects_get_google_app env.apps with
      | .error .doesNotExist =>
        .returns none (some "Google SocialApp not configured for this site.")
      | .error .multipleObjectsReturned => .raises "MultipleObjectsReturned"
      | .ok _ =>
        match try_body env tok with
        | .ok q => .returns (some q) none
        | .error e => .returns none (some e)

/-- One entry of the dashboard `items` list:
`{"account": acc, "quota": quota, "error": error}` (the account object itself
plays no role in the aggregation, so it is not modelled). -/
structure Item where
  quota : Option Quota
  error : Option String
deriving Repr

/-- The three loop accumulators of the aggregation in `dashboard`. -/
structure AggState where
  used_sum : Int
  all_finite : Bool
  limit_sum : Int
deriving Repr, DecidableEq

/-- One iteration of the aggregation loop: errored accounts
(`if not q: continue`) are skipped; `used_sum += int(q.get("usage") or 0)`
adds the raw usage (`x or 0` is the identity on ints here since `0 or 0 = 0`);
a `None` limit clears `all_finite`, a finite one is added to `limit_sum`. -/
def agg_step (st : AggState) (it : Item) : AggState :=
  match it.quota with
  | none => st
  | some q =>
    { used_sum := st.used_sum + q.quota_raw.usage
      all_finite :=
        match q.quota_raw.limit with
        | none => false
        | some _ => st.all_finite
      limit_sum :=
        match q.quota_raw.limit with
        | none => st.limit_sum
        | some v => st.limit_sum + v }

/-- The `total` dict built at the end of `dashboard`. -/
structure Total where
  used_bytes : Int
  limit_bytes : Option Int
  avail_bytes : Option Int
  used_h : String
  limit_h : String
  avail_h : Option String
  pct_used : Option Int
deriving Repr, DecidableEq

/-- Embedding of the aggregation half of the effective (second)
`views.dashboard`: the loop over `items`, then
`total_limit_b = limit_sum if (items and all_finite) else None` (an empty
`items` list is falsy), the derived totals and
`pct_used = int(round((total_used_b / total_limit_b) * 100)) if total_limit_b
else None` (both `None` and `0` are falsy). -/
def dashboard_totals (items : List Item) : Total :=
  let st := items.foldl agg_step { used_sum := 0, all_finite := true, limit_sum := 0 }
  let total_limit_b : Option Int :=
    match items with
    | [] => none
    | _ :: _ => if st.all_finite then some st.limit_sum else none
  let total_used_b : Int := st.used_sum
  let total_avail_b : Option Int := total_limit_b.map (fun l => l - total_used_b)
  { used_bytes := total_used_b
    limit_bytes := total_limit_b
    avail_bytes := total_avail_b
    used_h := humanize_bytes (some total_used_b)
    limit_h :=
      match total_limit_b with
      | some l => humanize_bytes (some l)
      | none => "unlimited"
    avail_h := total_avail_b.map (fun a => humanize_bytes (some a))
    pct_used :=
      match total_limit_b with
      | some l =>
        if l = 0 then none
        else some (round_half_even_div (total_used_b * 100) l)
      | none => none }

/-- The per-account loop of `dashboard`: one item per linked account, built by
the effective `_build_drive_quota_for_account`; an exception raised by a fetch
propagates out of the loop (and out of `dashboard`). -/
def dashboard_items : List VEnv → Except String (List Item)
  | [] => .ok []
  | e :: es =>
    match build_drive_quota_for_account e with
    | .raises exc => .error exc
    | .returns q err =>
      match dashboard_items es with
      | .error exc => .error exc
      | .ok items => .ok ({ quota := q, error := err } :: items)

/-- Embedding of the effective (second) `views.dashboard`: the rendered
context is the items list plus the aggregate total; an uncaught fetch
exception is fatal to the whole page render. -/
def dashboard (envs : List VEnv) : Except String (List Item × Total) :=
  match dashboard_items envs with
  | .error exc => .error exc
  | .ok items => .ok (items, dashboard_totals items)

/-- Quota dicts of the successfully fetched accounts, in order. -/
def succ_quotas (items : List Item) : List QuotaRaw :=
  items.filterMap (fun it => it.quota.map (fun q => q.quota_raw))

/-- Sum of raw usage over the successfully fetched accounts. -/
def usage_sum (items : List Item) : Int :=
  ((succ_quotas items).map (fun q => q.usage)).sum

/-- Sum of the finite raw limits over the successfully fetched accounts. -/
def succ_limit_sum (items : List Item) : Int :=
  ((succ_quotas items).filterMap (fun q => q.limit)).sum

/-- Every successfully fetched account has a finite limit. -/
def all_succ_finite (items : List Item) : Bool :=
  (succ_quotas items).all (fun q => q.limit.isSome)

end Views

namespace GApi

/-- JSON payload of the token-endpoint response read by
`_refresh_access_token` (each key may be absent). -/
structure TokenPayload where
  access_token : Option String
  refresh_token : Option String
  expires_in : Option Int
deriving Repr, DecidableEq

/-- An HTTP response as `google_api.py` reads it: status code, body text, and
the parsed JSON (`none` means `resp.json()` raises). -/
structure HttpResp (J : Type) where
  status_code : Nat
  text : String
  json : Option J
deriving Repr, DecidableEq

/-- Outcome of a `requests.get`/`requests.post` call: either the library
raised (timeout / connection error) or a response arrived. -/
inductive Net (J : Type) where
  | exc
  | resp (r : HttpResp J)
deriving Repr, DecidableEq

/-- Environment of one `get_storage_quota` call: the configured `SocialApp`
row (or none), the `SocialToken` row for the account (or none), and the
network outcomes of the token-endpoint POST and of the first and second
quota-endpoint GETs. -/
structure Env where
  app : Option SocialApp
  storedToken : Option SocialToken
  tokenResp : Net TokenPayload
  quotaResp1 : Net AboutJson
  quotaResp2 : Net AboutJson
deriving Repr, DecidableEq

/-- Observable effects of a `get_storage_quota` execution, in order: a GET of
the Drive quota endpoint with a bearer token, a POST of the token endpoint
with a refresh token, and a save of the mutated credential row. -/
inductive Effect where
  | quotaGet (accessToken : String)
  | tokenPost (refreshToken : String)
  | saveToken (t : SocialToken)
deriving Repr, DecidableEq

/-- Python exceptions that can leave `get_storage_quota`: a raised
`GoogleAPIError` with its message, a `requests` network exception, or a JSON
decoding exception from `resp.json()`. -/
inductive PyExc where
  | googleAPIError (msg : String)
  | requestsError
  | jsonError
deriving Repr, DecidableEq

/-- Embedding of `_get_social_app`. -/
def get_social_app (env : Env) : Except PyExc SocialApp :=
  match env.app with
  | some a => .ok a
  | none => .error (.googleAPIError "Google SocialApp not configured in admin.")

/-- The credential row written by a successful refresh: the access token is
replaced by `payload["access_token"]`, and `token_secret` is replaced only
when the payload carries a truthy `refresh_token`
(`if new_refresh: token_obj.token_secret = new_refresh`). -/
def refreshed_token (tok : SocialToken) (payload : TokenPayload) : SocialToken :=
  { token := payload.access_token.getD ""
    token_secret :=
      match payload.refresh_token with
      | some nr => if nr = "" then tok.token_secret else nr
      | none => tok.token_secret }

/-- Embedding of `_refresh_access_token`, returning the raised-or-returned
outcome together with the effect trace.  The guard order follows the source:
app lookup first, then the refresh-token presence check, then the POST.  The
`expires_in` handling on line 56 is a no-op for this repository because
`config/settings.py` defines no `timedelta` attribute, so `hasattr(settings,
"timedelta")` is false and `expires_at` keeps its old value. -/
def refresh_access_token (env : Env) (tok : SocialToken) :
    Except PyExc SocialToken × List Effect :=
  match get_social_app env with
  | .error e => (.error e, [])
  | .ok _ =>
    if tok.token_secret = "" then
      (.error (.googleAPIError "No refresh token available for this Google account."), [])
    else
      match env.tokenResp with
      | .exc => (.error .requestsError, [.tokenPost tok.token_secret])
      | .resp r =>
        if r.status_code ≠ 200 then
          (.error (.googleAPIError
            ("Failed to refresh token: " ++ toString r.status_code ++ " " ++ r.text)),
           [.tokenPost tok.token_secret])
        else
          match r.json with
          | none => (.error .jsonError, [.tokenPost tok.token_secret])
          | some payload =>
            if payload.access_token.getD "" = "" then
              (.error (.googleAPIError "Refresh response missing access_token"),
               [.tokenPost tok.token_secret])
            else
              let tok2 := refreshed_token tok payload
              (.ok tok2, [.tokenPost tok.token_secret, .saveToken tok2])

/-- Embedding of the local `_fmt` helper of `get_storage_quota`: `int(b)`
(which raises on `None` or a non-numeric string, caught and turned into
`None`), then GB formatting with one decimal (`v / 1024**3` as an exact
rational over the denominator `1024^3 = 1073741824`). -/
def fmt (b : Option String) : Option String :=
  match b with
  | none => none
  | some s =>
    match pyInt? s with
    | none => none
    | some v => some (fmt_fixed1_div v 1073741824 ++ " GB")

/-- The human-readable dict returned by `get_storage_quota` on success. -/
structure GQuotaDict where
  limit : String
  usage : String
  remaining : Option String
deriving Repr, DecidableEq

/-- Success-path tail of `get_storage_quota` (after a 200 response with
parseable JSON): field extraction, `"0"`/falsy handling and the final dict
with its `or`-fallbacks. -/
def quota_dict_of (data : AboutJson) : GQuotaDict :=
  let quota := data.storageQuota.getD { limit := none, usage := none }
  let limit := quota.limit
  let usage := quota.usage
  let limit_gb : Option String :=
    if optStrTruthy limit ∧ limit ≠ some "0" then fmt limit else none
  let usage_gb : Option String :=
    if optStrTruthy usage then fmt usage else none
  let remaining_gb : Option String :=
    if optStrTruthy limit ∧ limit ≠ some "0" ∧ optStrTruthy usage then
      match pyInt? (limit.getD ""), pyInt? (usage.getD "") with
      | some l, some u => some (fmt_fixed1_div (l - u) 1073741824 ++ " GB")
      | _, _ => none
    else none
  { limit := pyOrStr limit_gb "Unlimited"
    usage := pyOrStr usage_gb (pyOrStr usage "N/A")
    remaining := pyOrOpt remaining_gb (if limit_gb = none then some "N/A" else remaining_gb) }

/-- Shared tail of `get_storage_quota` once the final response is at hand:
non-200 raises `GoogleAPIError`, unparseable JSON raises from `resp.json()`,
otherwise the quota dict is built. -/
def finish_quota (r : HttpResp AboutJson) : Except PyExc GQuotaDict :=
  if r.status_code ≠ 200 then
    .error (.googleAPIError ("Drive API error: " ++ toString r.status_code ++ " " ++ r.text))
  else
    match r.json with
    | none => .error .jsonError
    | some data => .ok (quota_dict_of data)

/-- Embedding of `get_storage_quota`, returning the raised-or-returned
outcome together with the effect trace: missing-token raise, first GET,
refresh-and-retry on 401, then the shared response handling. -/
def get_storage_quota (env : Env) : Except PyExc GQuotaDict × List Effect :=
  match env.storedToken with
  | none => (.error (.googleAPIError "No token found for this Google account."), [])
  | some tok0 =>
    match env.quotaResp1 with
    | .exc => (.error .requestsError, [.quotaGet tok0.token])
    | .resp r1 =>
      if r1.status_code = 401 then
        match refresh_access_token env tok0 with
        | (.error e, fx) => (.error e, .quotaGet tok0.token :: fx)
        | (.ok tok1, fx) =>
          match env.quotaResp2 with
          | .exc =>
            (.error .requestsError, .quotaGet tok0.token :: (fx ++ [.quotaGet tok1.token]))
          | .resp r2 =>
            (finish_quota r2, .quotaGet tok0.token :: (fx ++ [.quotaGet tok1.token]))
      else
        (finish_quota r1, [.quotaGet tok0.token])

/-- Discriminator for token-endpoint POST effects. -/
def is_token_post : Effect → Bool
  | .tokenPost _ => true
  | _ => false

/-- Discriminator for quota-endpoint GET effects. -/
def is_quota_get : Effect → Bool
  | .quotaGet _ => true
  | _ => false

/-- Number of token-endpoint POSTs in a trace. -/
def posts (fx : List Effect) : Nat := fx.countP (fun e => is_token_post e)

/-- Number of quota-endpoint GETs in a trace. -/
def gets (fx : List Effect) : Nat := fx.countP (fun e => is_quota_get e)

/-- Credential rows written to the token store, in order. -/
def saves (fx : List Effect) : List SocialToken :=
  fx.filterMap (fun e =>
    match e with
    | .saveToken t => some t
    | _ => none)

/-- The token-endpoint POST exchanged the refresh token successfully: a 200
response whose JSON parses and carries a truthy `access_token`. -/
def refreshRespOk (env : Env) : Prop :=
  ∃ r payload, env.tokenResp = .resp r ∧ r.status_code = 200 ∧
    r.json = some payload ∧ payload.access_token.getD "" ≠ ""

end GApi

namespace Views

/-- The provider reported a limit of zero (any decimal spelling) or no limit
at all (missing key or missing `storageQuota` object; `sq_of` is defined
below and maps a missing `storageQuota` to the empty dict). -/
def reported_limit_zero_or_absent (about : AboutJson) : Bool :=
  match (about.storageQuota.getD { usage := none, limit := none }).limit with
  | none => true
  | some s => pyInt? s == some 0

end Views

/-! Concrete fixtures used by the witness theorems: the two accounts of
Scenario A (usages 4·2^30 and 1·2^30 bytes, limits 15·2^30 bytes), a
zero-limit response, and the refresh scenarios C and D of the spec. -/

/-- Scenario A, first account: usage 4·2^30, limit 15·2^30 (decimal strings,
as the Drive API reports byte counts). -/
def sqA : StorageQuota := { usage := some "4294967296", limit := some "16106127360" }

/-- Scenario A, second account: usage 1·2^30, limit 15·2^30. -/
def sqB : StorageQuota := { usage := some "1073741824", limit := some "16106127360" }

/-- A response reporting a zero limit. -/
def sqZero : StorageQuota := { usage := some "4294967296", limit := some "0" }

/-- A views-fetcher environment where everything succeeds and the Drive call
returns `sqA`. -/
def wEnvA : Views.VEnv :=
  { googleLibs := true
    storedToken := some { token := "at", token_secret := "rt" }
    apps := [{ client_id := "id", secret := "sec" }]
    credsExpired := false
    refreshOutcome := .ok "at2"
    driveOutcome := .ok { storageQuota := some sqA } }

/-- The same environment with two Google `SocialApp` rows configured, making
the `objects.get` lookup raise `MultipleObjectsReturned`. -/
def wEnvDup : Views.VEnv :=
  { wEnvA with
    apps := [{ client_id := "id", secret := "sec" }, { client_id := "id2", secret := "sec2" }] }

/-- Same environment with the Drive call returning `sqB`. -/
def wEnvB : Views.VEnv := { wEnvA with driveOutcome := .ok { storageQuota := some sqB } }

/-- Same environment with the Drive call reporting a zero limit. -/
def wEnvZero : Views.VEnv := { wEnvA with driveOutcome := .ok { storageQuota := some sqZero } }

/-- A successfully fetched item as the dashboard builds it for `wEnvA`
(usage 4·2^30, limit 15·2^30). -/
def itemA : Views.Item :=
  { quota := some (Views.mk_quota 4294967296 16106127360), error := none }

/-- An item for an account whose fetch failed. -/
def itemErr : Views.Item := { quota := none, error := some "NetworkError" }

/-- Token-endpoint payload of Scenario C: a fresh access token, no new
refresh token. -/
def gPayloadC : GApi.TokenPayload :=
  { access_token := some "newtok", refresh_token := none, expires_in := some 3600 }

/-- Token-endpoint 200 response of Scenario C. -/
def gTokRespC : GApi.HttpResp GApi.TokenPayload :=
  { status_code := 200, text := "ok", json := some gPayloadC }

/-- A 401 response from the Drive quota endpoint. -/
def gResp401 : GApi.HttpResp AboutJson :=
  { status_code := 401, text := "unauthorized", json := none }

/-- A 200 response from the Drive quota endpoint carrying `sqA`. -/
def gResp200 : GApi.HttpResp AboutJson :=
  { status_code := 200, text := "ok", json := some { storageQuota := some sqA } }

/-- Scenario C environment: stored credential with refresh token, first quota
GET answers 401, the refresh POST succeeds, the retried GET answers 200. -/
def gEnvC : GApi.Env :=
  { app := some { client_id := "id", secret := "sec" }
    storedToken := some { token := "old", token_secret := "rt" }
    tokenResp := .resp gTokRespC
    quotaResp1 := .resp gResp401
    quotaResp2 := .resp gResp200 }

/-- Scenario D environment: like Scenario C but the stored credential has no
refresh token. -/
def gEnvD : GApi.Env := { gEnvC with storedToken := some { token := "old", token_secret := "" } }

/-! Lemmas about the aggregation loop. -/

/-- Closed form of the aggregation loop of `dashboard`: starting from any
accumulator state, the loop adds the usage sum, conjoins finiteness of every
successful limit, and adds the finite-limit sum. -/
lemma foldl_agg_step (items : List Views.Item) (st : Views.AggState) :
    items.foldl Views.agg_step st =
      { used_sum := st.used_sum + Views.usage_sum items
        all_finite := st.all_finite && Views.all_succ_finite items
        limit_sum := st.limit_sum + Views.succ_limit_sum items } := by
  induction items generalizing st with
  | nil =>
    simp [Views.usage_sum, Views.all_succ_finite, Views.succ_limit_sum, Views.succ_quotas]
  | cons it rest ih =>
    rw [List.foldl_cons, ih]
    cases hq : it.quota with
    | none =>
      simp [Views.agg_step, hq, Views.usage_sum, Views.all_succ_finite,
        Views.succ_limit_sum, Views.succ_quotas, List.filterMap_cons]
    | some q =>
      cases hl : q.quota_raw.limit with
      | none =>
        simp [Views.agg_step, hq, hl, Views.usage_sum, Views.all_succ_finite,
          Views.succ_limit_sum, Views.succ_quotas, List.filterMap_cons]
        omega
      | some v =>
        simp [Views.agg_step, hq, hl, Views.usage_sum, Views.all_succ_finite,
          Views.succ_limit_sum, Views.succ_quotas, List.filterMap_cons, Bool.and_comm]
        constructor <;> omega

/-- The aggregate `used_bytes` is the usage sum over successful accounts. -/
lemma dashboard_totals_used (items : List Views.Item) :
    (Views.dashboard_totals items).used_bytes = Views.usage_sum items := by
  unfold Views.dashboard_totals
  rw [foldl_agg_step]
  simp

/-- The aggregate `limit_bytes`: `None` for an empty items list or when some
successful account is unlimited, otherwise the finite-limit sum. -/
lemma dashboard_totals_limit (items : List Views.Item) :
    (Views.dashboard_totals items).limit_bytes =
      match items with
      | [] => none
      | _ :: _ =>
        if Views.all_succ_finite items then some (Views.succ_limit_sum items) else none := by
  unfold Views.dashboard_totals
  rw [foldl_agg_step]
  cases items with
  | nil => simp
  | cons it rest =>
    by_cases h : Views.all_succ_finite (it :: rest) <;> simp [h]

/-- The aggregate `pct_used`, expressed through `limit_bytes` and
`used_bytes`. -/
lemma dashboard_totals_pct (items : List Views.Item) :
    (Views.dashboard_totals items).pct_used =
      match (Views.dashboard_totals items).limit_bytes with
      | some l =>
        if l = 0 then none
        else some (round_half_even_div ((Views.dashboard_totals items).used_bytes * 100) l)
      | none => none := by
  rfl

/-- Items that all errored contribute nothing: the successful-quota list is
empty. -/
lemma succ_quotas_all_errored (items : List Views.Item)
    (h : ∀ it ∈ items, it.quota = none) : Views.succ_quotas items = [] := by
  unfold Views.succ_quotas
  rw [List.filterMap_eq_nil_iff]
  intro it hit
  rw [h it hit]
  rfl

/-- C6: for every sequence of per-account results, the aggregate `total_used`
equals the sum of `usage_bytes` over only the successfully-fetched accounts
(an errored account is skipped by the loop, contributing 0), and — once some
account is present — prepending an errored account leaves the whole aggregate,
including `pct_used`, unchanged. -/
theorem total_used_sums_successful_accounts (items : List Views.Item) :
    (Views.dashboard_totals items).used_bytes = Views.usage_sum items ∧
    (items ≠ [] → ∀ msg, Views.dashboard_totals ({ quota := none, error := some msg } :: items) =
      Views.dashboard_totals items) := by
  refine ⟨dashboard_totals_used items, ?_⟩
  intro hne _msg
  cases items with
  | nil => exact absurd rfl hne
  | cons it rest => rfl

/-- Witness for C6 at a concrete input: one successful account plus a
prepended errored account. -/
theorem total_used_sums_successful_accounts_witness :
    (Views.dashboard_totals [itemA]).used_bytes = Views.usage_sum [itemA] ∧
    Views.dashboard_totals ({ quota := none, error := some "NetworkError" } :: [itemA]) =
      Views.dashboard_totals [itemA] :=
  ⟨(total_used_sums_successful_accounts [itemA]).1,
   (total_used_sums_successful_accounts [itemA]).2 (List.cons_ne_nil _ _) "NetworkError"⟩

/-- C5 counterexample: on the empty sequence every successfully-fetched limit
is vacuously finite and their sum is 0, yet the code yields `total_limit =
None` rather than that sum — the claimed equivalence fails as stated. -/
theorem total_limit_iff_fails_on_empty :
    Views.all_succ_finite [] = true ∧ Views.succ_limit_sum [] = 0 ∧
    (Views.dashboard_totals []).limit_bytes ≠ some (Views.succ_limit_sum []) := by
  refine ⟨rfl, rfl, ?_⟩
  rw [dashboard_totals_limit]
  simp

/-- C5 (amended): for every nonempty sequence of per-account results, the
aggregate `total_limit` is the finite-limit sum over successfully-fetched
accounts iff every such account has a finite limit, and whenever some
successfully-fetched account is unlimited `total_limit` is `None` (unlimited)
regardless of the other accounts; on the empty sequence the code returns
`None` instead of the vacuous sum 0. -/
theorem total_limit_finite_iff_all_finite (items : List Views.Item) (hne : items ≠ []) :
    ((Views.dashboard_totals items).limit_bytes = some (Views.succ_limit_sum items) ↔
      Views.all_succ_finite items = true) ∧
    ((∃ q ∈ Views.succ_quotas items, q.limit = none) →
      (Views.dashboard_totals items).limit_bytes = none) := by
  cases items with
  | nil => exact absurd rfl hne
  | cons it rest =>
    rw [dashboard_totals_limit]
    constructor
    · by_cases h : Views.all_succ_finite (it :: rest) <;> simp [h]
    · rintro ⟨q, hq, hql⟩
      have h : Views.all_succ_finite (it :: rest) = false := by
        unfold Views.all_succ_finite
        rw [List.all_eq_false]
        exact ⟨q, hq, by simp [hql]⟩
      simp [h]

/-- Witness for C5 (amended) at a concrete nonempty input. -/
theorem total_limit_finite_iff_all_finite_witness :
    ((Views.dashboard_totals [itemA]).limit_bytes = some (Views.succ_limit_sum [itemA]) ↔
      Views.all_succ_finite [itemA] = true) ∧
    ((∃ q ∈ Views.succ_quotas [itemA], q.limit = none) →
      (Views.dashboard_totals [itemA]).limit_bytes = none) :=
  total_limit_finite_iff_all_finite [itemA] (List.cons_ne_nil _ _)

/-- C7: with a finite nonzero aggregate limit, `pct_used` is the half-even
rounding (Python `round` on the float ratio, abstracted to exact rationals) of
`total_used / total_limit * 100`; with an unlimited or zero aggregate limit it
is `None`; and on Scenario A (usages 4·2^30 and 1·2^30, limits 15·2^30 each)
it is 17. -/
theorem pct_used_rounds_ratio (items : List Views.Item) (l : Int) :
    ((Views.dashboard_totals items).limit_bytes = some l → l ≠ 0 →
      (Views.dashboard_totals items).pct_used =
        some (round_half_even_div ((Views.dashboard_totals items).used_bytes * 100) l)) ∧
    ((Views.dashboard_totals items).limit_bytes = none ∨
        (Views.dashboard_totals items).limit_bytes = some 0 →
      (Views.dashboard_totals items).pct_used = none) ∧
    (Views.dashboard_items [wEnvA, wEnvB]).map
      (fun xs => (Views.dashboard_totals xs).pct_used) = .ok (some 17) := by
  refine ⟨?_, ?_, ?_⟩
  · intro hl hnz
    rw [dashboard_totals_pct, hl]
    simp [hnz]
  · intro h
    rcases h with h | h
    · rw [dashboard_totals_pct, h]
    · rw [dashboard_totals_pct, h]
      simp
  · rfl

/-- Witness for C7 at a concrete input with a finite nonzero limit. -/
theorem pct_used_rounds_ratio_witness :
    (Views.dashboard_totals [itemA]).pct_used =
      some (round_half_even_div ((Views.dashboard_totals [itemA]).used_bytes * 100) 16106127360) :=
  (pct_used_rounds_ratio [itemA] 16106127360).1 (by decide) (by decide)

/-- C10 counterexample: with one linked account whose fetch errored, the code
yields the finite `total_limit = 0`, not `None`/unlimited as the claim
states for the all-errored case. -/
theorem all_errored_total_limit_is_finite_zero :
    (Views.dashboard_totals [itemErr]).limit_bytes = some 0 ∧
    ¬ (Views.dashboard_totals [itemErr]).limit_bytes = none := by
  decide

/-- C10 (amended): with no linked accounts the aggregate has `total_used = 0`,
`total_limit = None` (unlimited, not a finite 0) and `pct_used = None`; with
accounts present but every fetch errored, `total_used = 0` and `pct_used =
None` still hold but `total_limit` is the finite `0`, not unlimited. -/
theorem empty_and_all_errored_aggregate (items : List Views.Item) :
    (Views.dashboard ([] : List Views.VEnv) = .ok ([], Views.dashboard_totals []) ∧
     (Views.dashboard_totals ([] : List Views.Item)).used_bytes = 0 ∧
     (Views.dashboard_totals ([] : List Views.Item)).limit_bytes = none ∧
     (Views.dashboard_totals ([] : List Views.Item)).pct_used = none) ∧
    (items ≠ [] → (∀ it ∈ items, it.quota = none) →
      (Views.dashboard_totals items).used_bytes = 0 ∧
      (Views.dashboard_totals items).limit_bytes = some 0 ∧
      (Views.dashboard_totals items).pct_used = none) := by
  refine ⟨⟨rfl, rfl, rfl, rfl⟩, ?_⟩
  intro hne hall
  have hsq := succ_quotas_all_errored items hall
  have hu : Views.usage_sum items = 0 := by simp [Views.usage_sum, hsq]
  have hl : Views.succ_limit_sum items = 0 := by simp [Views.succ_limit_sum, hsq]
  have hf : Views.all_succ_finite items = true := by simp [Views.all_succ_finite, hsq]
  have hlim : (Views.dashboard_totals items).limit_bytes = some 0 := by
    rw [dashboard_totals_limit]
    cases items with
    | nil => exact absurd rfl hne
    | cons a b => simp [hf, hl]
  refine ⟨?_, hlim, ?_⟩
  · rw [dashboard_totals_used, hu]
  · rw [dashboard_totals_pct, hlim]
    simp

/-- Witness for C10 (amended) at a concrete all-errored input. -/
theorem empty_and_all_errored_aggregate_witness :
    (Views.dashboard_totals [itemErr]).used_bytes = 0 ∧
    (Views.dashboard_totals [itemErr]).limit_bytes = some 0 ∧
    (Views.dashboard_totals [itemErr]).pct_used = none :=
  (empty_and_all_errored_aggregate [itemErr]).2 (List.cons_ne_nil _ _)
    (by
      intro it hit
      rw [List.mem_singleton] at hit
      rw [hit]
      rfl)

/-! Lemmas about the views-layer quota fetcher. -/

/-- A `QuerySet.get` over at most one row cannot raise
`MultipleObjectsReturned`. -/
lemma objects_get_single_row_ne_multiple (apps : List SocialApp)
    (h : apps.length ≤ 1) :
    Views.objects_get_google_app apps ≠ .error .multipleObjectsReturned := by
  match apps with
  | [] => simp [Views.objects_get_google_app]
  | [a] => simp [Views.objects_get_google_app]
  | a :: b :: rest => simp at h

/-- C2 counterexample: with two Google `SocialApp` rows configured, the
`SocialApp.objects.get(provider="google")` lookup raises
`MultipleObjectsReturned`; the fetcher catches only `SocialApp.DoesNotExist`,
so the exception escapes its boundary (fatal to the page render) instead of
becoming a per-account error value, falsifying the claim as stated. -/
theorem fetch_raises_on_duplicate_apps :
    Views.build_drive_quota_for_account wEnvDup = .raises "MultipleObjectsReturned" := by
  rfl

/-- C2 (amended): on every input whose Google `SocialApp` table has at most
one row — so the app lookup cannot raise `MultipleObjectsReturned` — the
views-layer quota fetcher produces either a quota dict with no error or
`None` with an explicit per-account error string: every failure path (missing
library, missing credential, missing app row, refresh failure, provider
error, parse failure) is an error value and no exception escapes its
boundary.  With duplicate Google app rows the lookup's uncaught
`MultipleObjectsReturned` escapes (see the counterexample). -/
theorem fetch_never_raises (env : Views.VEnv) (happs : env.apps.length ≤ 1) :
    (∃ q, Views.build_drive_quota_for_account env = .returns (some q) none) ∨
    (∃ e, Views.build_drive_quota_for_account env = .returns none (some e)) := by
  unfold Views.build_drive_quota_for_account
  split
  · exact .inr ⟨_, rfl⟩
  · split
    · exact .inr ⟨_, rfl⟩
    · split
      · exact .inr ⟨_, rfl⟩
      · exact absurd
          ‹Views.objects_get_google_app env.apps = .error .multipleObjectsReturned›
          (objects_get_single_row_ne_multiple env.apps happs)
      · split
        · exact .inl ⟨_, rfl⟩
        · exact .inr ⟨_, rfl⟩

/-- Witness for C2 (amended) at a concrete single-app environment. -/
theorem fetch_never_raises_witness :
    (∃ q, Views.build_drive_quota_for_account wEnvA = .returns (some q) none) ∨
    (∃ e, Views.build_drive_quota_for_account wEnvA = .returns none (some e)) :=
  fetch_never_raises wEnvA (by decide)

/-- Inversion: a fetch that returned a quota went through the `try` body
successfully on a stored token. -/
lemma fetch_ok_inv (env : Views.VEnv) (q : Views.Quota)
    (h : Views.build_drive_quota_for_account env = .returns (some q) none) :
    ∃ tok, env.storedToken = some tok ∧ Views.try_body env tok = .ok q := by
  unfold Views.build_drive_quota_for_account at h
  split at h
  · simp at h
  · split at h
    · simp at h
    · split at h
      · simp at h
      · simp at h
      · split at h
        · rename_i x1 tok htok x2 app happ x3 q2 hq2
          simp at h
          exact ⟨tok, htok, by rw [hq2, h]⟩
        · simp at h

/-- Inversion: a successful `try` body run consists of a successful Drive
call and two successful field parses, and builds the quota via `mk_quota`. -/
lemma try_body_ok_inv (env : Views.VEnv) (tok : SocialToken) (q : Views.Quota)
    (h : Views.try_body env tok = .ok q) :
    ∃ about usage_b limit_b0, env.driveOutcome = .ok about ∧
      Views.pyIntOf (Views.sq_of about).usage = .ok usage_b ∧
      Views.pyIntOf (Views.sq_of about).limit = .ok limit_b0 ∧
      q = Views.mk_quota usage_b limit_b0 := by
  unfold Views.try_body at h
  split at h
  · simp at h
  · split at h
    · simp at h
    · split at h
      · simp at h
      · split at h
        · simp at h
        · rename_i s1 u hr s2 about hd s3 usage_b hu s4 limit_b0 hl
          simp at h
          exact ⟨about, usage_b, limit_b0, hd, hu, hl, h.symm⟩

/-- C3: whenever the provider reported a limit that is zero or absent and the
fetch produced a quota, that quota is normalized to the unlimited form: its
raw limit is `None`, its display limit is the string `unlimited`, and both
remaining values are undefined (`None`). -/
theorem limit_zero_or_absent_is_unlimited (env : Views.VEnv) (about : AboutJson)
    (q : Views.Quota)
    (hd : env.driveOutcome = .ok about)
    (hz : Views.reported_limit_zero_or_absent about = true)
    (h : Views.build_drive_quota_for_account env = .returns (some q) none) :
    q.limit = "unlimited" ∧ q.quota_raw.limit = none ∧
    q.remaining = none ∧ q.quota_raw.remaining = none := by
  obtain ⟨tok, -, hok⟩ := fetch_ok_inv env q h
  obtain ⟨about2, u, l0, hd2, hu, hl, hq⟩ := try_body_ok_inv env tok q hok
  rw [hd] at hd2
  injection hd2 with hd2
  subst hd2
  have hl0 : l0 = 0 := by
    unfold Views.reported_limit_zero_or_absent at hz
    unfold Views.sq_of at hl
    cases hsl : (about.storageQuota.getD { usage := none, limit := none }).limit with
    | none =>
      rw [hsl] at hl
      simp [Views.pyIntOf] at hl
      omega
    | some s =>
      rw [hsl] at hz hl
      simp only [beq_iff_eq] at hz
      simp [Views.pyIntOf, hz] at hl
      omega
  subst hl0
  subst hq
  exact ⟨rfl, rfl, rfl, rfl⟩

/-- C4: if the fetch produced a quota whose limit is finite (`some l`) and
the reported usage does not exceed it, then the raw remaining value is
exactly `l - usage`, and it is non-negative. -/
theorem remaining_is_limit_minus_usage (env : Views.VEnv) (q : Views.Quota) (l : Int)
    (h : Views.build_drive_quota_for_account env = .returns (some q) none)
    (hl : q.quota_raw.limit = some l)
    (hle : q.quota_raw.usage ≤ l) :
    q.quota_raw.remaining = some (l - q.quota_raw.usage) ∧
    0 ≤ l - q.quota_raw.usage := by
  obtain ⟨tok, -, hok⟩ := fetch_ok_inv env q h
  obtain ⟨about, u, l0, -, -, -, hq⟩ := try_body_ok_inv env tok q hok
  subst hq
  simp only [Views.mk_quota] at hl hle ⊢
  by_cases h0 : l0 = 0
  · simp [h0] at hl
  · simp only [h0, if_false] at hl hle ⊢
    injection hl with hl
    subst hl
    simp at hle ⊢
    omega


/-- Witness for C3 at a concrete zero-limit provider response. -/
theorem limit_zero_or_absent_is_unlimited_witness :
    (Views.mk_quota 4294967296 0).limit = "unlimited" ∧
    (Views.mk_quota 4294967296 0).quota_raw.limit = none ∧
    (Views.mk_quota 4294967296 0).remaining = none ∧
    (Views.mk_quota 4294967296 0).quota_raw.remaining = none :=
  limit_zero_or_absent_is_unlimited wEnvZero { storageQuota := some sqZero }
    (Views.mk_quota 4294967296 0) rfl (by decide) (by decide)

/-- Witness for C4 at a concrete finite-limit provider response. -/
theorem remaining_is_limit_minus_usage_witness :
    (Views.mk_quota 4294967296 16106127360).quota_raw.remaining =
      some (16106127360 - (Views.mk_quota 4294967296 16106127360).quota_raw.usage) ∧
    0 ≤ 16106127360 - (Views.mk_quota 4294967296 16106127360).quota_raw.usage :=
  remaining_is_limit_minus_usage wEnvA (Views.mk_quota 4294967296 16106127360) 16106127360
    (by decide) (by decide) (by decide)

/-! Lemmas about the `google_api.py` refresh-and-retry flow. -/

/-- Trace bounds of `_refresh_access_token`: at most one token-endpoint POST,
no quota-endpoint GET, and at most one credential save, on every path. -/
lemma refresh_trace_bounds (env : GApi.Env) (tok : SocialToken) :
    GApi.posts (GApi.refresh_access_token env tok).2 ≤ 1 ∧
    GApi.gets (GApi.refresh_access_token env tok).2 = 0 ∧
    (GApi.saves (GApi.refresh_access_token env tok).2).length ≤ 1 := by
  unfold GApi.refresh_access_token
  repeat' split
  all_goals
    simp [GApi.posts, GApi.gets, GApi.saves, GApi.is_token_post, GApi.is_quota_get]

/-- A refresh whose POST succeeds with a truthy access token returns the
updated credential and the trace of exactly one POST and one save. -/
lemma refresh_success_shape (env : GApi.Env) (tok : SocialToken)
    (r : GApi.HttpResp GApi.TokenPayload) (payload : GApi.TokenPayload)
    (happ : env.app.isSome = true) (hrt : tok.token_secret ≠ "")
    (htr : env.tokenResp = .resp r) (h200 : r.status_code = 200)
    (hj : r.json = some payload) (ha : payload.access_token.getD "" ≠ "") :
    GApi.refresh_access_token env tok =
      (.ok (GApi.refreshed_token tok payload),
       [.tokenPost tok.token_secret, .saveToken (GApi.refreshed_token tok payload)]) := by
  obtain ⟨a, happ2⟩ := Option.isSome_iff_exists.mp happ
  unfold GApi.refresh_access_token GApi.get_social_app
  rw [happ2, htr]
  simp [hrt, h200, hj, ha]

/-- Counting lemmas: a quota GET at the head contributes only to `gets`. -/
lemma counts_cons_quotaGet (t : String) (fx : List GApi.Effect) :
    GApi.posts (GApi.Effect.quotaGet t :: fx) = GApi.posts fx ∧
    GApi.gets (GApi.Effect.quotaGet t :: fx) = 1 + GApi.gets fx ∧
    GApi.saves (GApi.Effect.quotaGet t :: fx) = GApi.saves fx := by
  refine ⟨?_, ?_, ?_⟩ <;>
    simp [GApi.posts, GApi.gets, GApi.saves, GApi.is_token_post, GApi.is_quota_get,
      List.countP_cons, Nat.add_comm]

/-- Counting lemmas: counts distribute over trace concatenation. -/
lemma counts_append (fx gx : List GApi.Effect) :
    GApi.posts (fx ++ gx) = GApi.posts fx + GApi.posts gx ∧
    GApi.gets (fx ++ gx) = GApi.gets fx + GApi.gets gx ∧
    GApi.saves (fx ++ gx) = GApi.saves fx ++ GApi.saves gx := by
  refine ⟨?_, ?_, ?_⟩ <;>
    simp [GApi.posts, GApi.gets, GApi.saves, List.countP_append]

/-- Trace bounds of `get_storage_quota`: on every execution at most one
token-endpoint POST (refresh), at most two quota-endpoint GETs (the original
request plus at most one retry), and at most one credential save. -/
lemma gsq_trace_bounds (env : GApi.Env) :
    GApi.posts (GApi.get_storage_quota env).2 ≤ 1 ∧
    GApi.gets (GApi.get_storage_quota env).2 ≤ 2 ∧
    (GApi.saves (GApi.get_storage_quota env).2).length ≤ 1 := by
  unfold GApi.get_storage_quota
  split
  · simp [GApi.posts, GApi.gets, GApi.saves]
  · split
    · simp [GApi.posts, GApi.gets, GApi.saves, GApi.is_quota_get, GApi.is_token_post]
    · split
      · split
        · rename_i x0 tok hst x1 r1 hqr1 h401 xp e fx href
          have hb := refresh_trace_bounds env tok
          rw [href] at hb
          have hb2 : GApi.posts fx ≤ 1 ∧ GApi.gets fx = 0 ∧ (GApi.saves fx).length ≤ 1 := hb
          obtain ⟨c1, c2, c3⟩ := counts_cons_quotaGet tok.token fx
          rw [c1, c2, c3]
          omega
        · split
          · rename_i x0 tok hst x1 r1 hqr1 h401 xp tok1 fx href xq hq2
            have hb := refresh_trace_bounds env tok
            rw [href] at hb
            have hb2 : GApi.posts fx ≤ 1 ∧ GApi.gets fx = 0 ∧ (GApi.saves fx).length ≤ 1 := hb
            obtain ⟨c1, c2, c3⟩ :=
              counts_cons_quotaGet tok.token (fx ++ [GApi.Effect.quotaGet tok1.token])
            rw [c1, c2, c3]
            obtain ⟨a1, a2, a3⟩ := counts_append fx [GApi.Effect.quotaGet tok1.token]
            rw [a1, a2, a3]
            simp only [List.length_append]
            have hone : GApi.posts [GApi.Effect.quotaGet tok1.token] = 0 ∧
                GApi.gets [GApi.Effect.quotaGet tok1.token] = 1 ∧
                (GApi.saves [GApi.Effect.quotaGet tok1.token]).length = 0 := by
              refine ⟨rfl, rfl, rfl⟩
            omega
          · rename_i x0 tok hst x1 r1 hqr1 h401 xp tok1 fx href xq r2 hq2
            have hb := refresh_trace_bounds env tok
            rw [href] at hb
            have hb2 : GApi.posts fx ≤ 1 ∧ GApi.gets fx = 0 ∧ (GApi.saves fx).length ≤ 1 := hb
            obtain ⟨c1, c2, c3⟩ :=
              counts_cons_quotaGet tok.token (fx ++ [GApi.Effect.quotaGet tok1.token])
            rw [c1, c2, c3]
            obtain ⟨a1, a2, a3⟩ := counts_append fx [GApi.Effect.quotaGet tok1.token]
            rw [a1, a2, a3]
            simp only [List.length_append]
            have hone : GApi.posts [GApi.Effect.quotaGet tok1.token] = 0 ∧
                GApi.gets [GApi.Effect.quotaGet tok1.token] = 1 ∧
                (GApi.saves [GApi.Effect.quotaGet tok1.token]).length = 0 := by
              refine ⟨rfl, rfl, rfl⟩
            omega
      · simp [GApi.posts, GApi.gets, GApi.saves, GApi.is_quota_get, GApi.is_token_post]

/-- Helper for refreshes without a stored refresh token: no effect at all is
performed (in particular no token-endpoint POST), and with a configured app
the outcome is the missing-refresh-token `GoogleAPIError`. -/
lemma refresh_no_secret (env : GApi.Env) (tok : SocialToken)
    (hrt : tok.token_secret = "") :
    (GApi.refresh_access_token env tok).2 = [] ∧
    (env.app.isSome = true →
      GApi.refresh_access_token env tok =
        (.error (.googleAPIError "No refresh token available for this Google account."),
         [])) := by
  constructor
  · unfold GApi.refresh_access_token GApi.get_social_app
    cases happ : env.app <;> simp [hrt]
  · intro happ
    obtain ⟨a, happ2⟩ := Option.isSome_iff_exists.mp happ
    unfold GApi.refresh_access_token GApi.get_social_app
    rw [happ2]
    simp [hrt]

/-- Full trace of the refresh-and-retry success path of `get_storage_quota`:
original GET with the old token, one POST, one save of the refreshed
credential, and one retry GET with the refreshed access token. -/
lemma gsq_refresh_success_trace (env : GApi.Env) (tok : SocialToken)
    (r1 : GApi.HttpResp AboutJson) (r : GApi.HttpResp GApi.TokenPayload)
    (payload : GApi.TokenPayload)
    (hst : env.storedToken = some tok) (hqr1 : env.quotaResp1 = .resp r1)
    (h401 : r1.status_code = 401) (happ : env.app.isSome = true)
    (hrt : tok.token_secret ≠ "") (htr : env.tokenResp = .resp r)
    (h200 : r.status_code = 200) (hj : r.json = some payload)
    (ha : payload.access_token.getD "" ≠ "") :
    (GApi.get_storage_quota env).2 =
      [.quotaGet tok.token, .tokenPost tok.token_secret,
       .saveToken (GApi.refreshed_token tok payload),
       .quotaGet (GApi.refreshed_token tok payload).token] := by
  have hr := refresh_success_shape env tok r payload happ hrt htr h200 hj ha
  cases hq2 : env.quotaResp2 with
  | exc => simp [GApi.get_storage_quota, hst, hqr1, h401, hr, hq2]
  | resp r2 => simp [GApi.get_storage_quota, hst, hqr1, h401, hr, hq2]

/-- C1: on every execution `get_storage_quota` performs at most one refresh
(token-endpoint POST) and at most one retry of the quota request (at most two
quota GETs in total); and when the first quota request answers 401, a refresh
token is stored, the app is configured and the token exchange succeeds, it
performs exactly one refresh-and-retry: one POST, two GETs and one persisted
credential. -/
theorem single_refresh_and_retry (env : GApi.Env) :
    (GApi.posts (GApi.get_storage_quota env).2 ≤ 1 ∧
     GApi.gets (GApi.get_storage_quota env).2 ≤ 2) ∧
    (∀ tok r1, env.storedToken = some tok → env.quotaResp1 = .resp r1 →
      r1.status_code = 401 → tok.token_secret ≠ "" → env.app.isSome = true →
      GApi.refreshRespOk env →
      GApi.posts (GApi.get_storage_quota env).2 = 1 ∧
      GApi.gets (GApi.get_storage_quota env).2 = 2 ∧
      (GApi.saves (GApi.get_storage_quota env).2).length = 1) := by
  refine ⟨⟨(gsq_trace_bounds env).1, (gsq_trace_bounds env).2.1⟩, ?_⟩
  intro tok r1 hst hqr1 h401 hrt happ hok
  obtain ⟨r, payload, htr, h200, hj, ha⟩ := hok
  rw [gsq_refresh_success_trace env tok r1 r payload hst hqr1 h401 happ hrt htr h200 hj ha]
  exact ⟨rfl, rfl, rfl⟩

/-- Witness for C1 on the concrete Scenario C environment. -/
theorem single_refresh_and_retry_witness :
    GApi.posts (GApi.get_storage_quota gEnvC).2 = 1 ∧
    GApi.gets (GApi.get_storage_quota gEnvC).2 = 2 ∧
    (GApi.saves (GApi.get_storage_quota gEnvC).2).length = 1 :=
  (single_refresh_and_retry gEnvC).2 { token := "old", token_secret := "rt" } gResp401
    rfl rfl rfl (by decide) rfl ⟨gTokRespC, gPayloadC, rfl, rfl, rfl, by decide⟩

/-- C8: when the stored credential has no refresh token, `get_storage_quota`
performs no token-endpoint POST on any path, and if the quota request is
rejected with 401 (with the app configured) it returns the immediate
missing-refresh-token error. -/
theorem missing_refresh_token_no_token_post (env : GApi.Env) (tok : SocialToken)
    (hst : env.storedToken = some tok) (hrt : tok.token_secret = "") :
    GApi.posts (GApi.get_storage_quota env).2 = 0 ∧
    (∀ r1, env.app.isSome = true → env.quotaResp1 = .resp r1 → r1.status_code = 401 →
      (GApi.get_storage_quota env).1 =
        .error (.googleAPIError "No refresh token available for this Google account.")) := by
  have hr := refresh_no_secret env tok hrt
  constructor
  · cases hq1 : env.quotaResp1 with
    | exc =>
      simp [GApi.get_storage_quota, hst, hq1, GApi.posts, GApi.is_token_post,
        List.countP_cons, List.countP_nil]
    | resp r1 =>
      by_cases h401 : r1.status_code = 401
      · rcases hres : GApi.refresh_access_token env tok with ⟨res, fx⟩
        have hfx : fx = [] := by
          have h2 := hr.1
          rw [hres] at h2
          exact h2
        subst hfx
        cases res with
        | error e =>
          simp [GApi.get_storage_quota, hst, hq1, h401, hres,
            GApi.posts, GApi.is_token_post, List.countP_cons, List.countP_nil]
        | ok tok1 =>
          cases hq2 : env.quotaResp2 with
          | exc =>
            simp [GApi.get_storage_quota, hst, hq1, h401, hres, hq2,
              GApi.posts, GApi.is_token_post, List.countP_cons, List.countP_nil]
          | resp r2 =>
            simp [GApi.get_storage_quota, hst, hq1, h401, hres, hq2,
              GApi.posts, GApi.is_token_post, List.countP_cons, List.countP_nil]
      · simp [GApi.get_storage_quota, hst, hq1, h401,
          GApi.posts, GApi.is_token_post, List.countP_cons, List.countP_nil]
  · intro r1 happ hq1 h401
    have h2 := hr.2 happ
    simp [GApi.get_storage_quota, hst, hq1, h401, h2]

/-- Witness for C8 on the concrete Scenario D environment. -/
theorem missing_refresh_token_no_token_post_witness :
    GApi.posts (GApi.get_storage_quota gEnvD).2 = 0 ∧
    (GApi.get_storage_quota gEnvD).1 =
      .error (.googleAPIError "No refresh token available for this Google account.") :=
  ⟨(missing_refresh_token_no_token_post gEnvD { token := "old", token_secret := "" }
      rfl rfl).1,
   (missing_refresh_token_no_token_post gEnvD { token := "old", token_secret := "" }
      rfl rfl).2 gResp401 rfl rfl rfl⟩

/-- C9: a successful refresh inside `get_storage_quota` writes the credential
store exactly once, with the access token replaced by the payload's new one;
the refresh token is replaced only if the payload carries a truthy new
refresh token and is unchanged otherwise; and no execution ever saves more
than once. -/
theorem refresh_single_credential_write (env : GApi.Env) (tok : SocialToken)
    (r1 : GApi.HttpResp AboutJson) (r : GApi.HttpResp GApi.TokenPayload)
    (payload : GApi.TokenPayload)
    (hst : env.storedToken = some tok) (hqr1 : env.quotaResp1 = .resp r1)
    (h401 : r1.status_code = 401) (happ : env.app.isSome = true)
    (hrt : tok.token_secret ≠ "") (htr : env.tokenResp = .resp r)
    (h200 : r.status_code = 200) (hj : r.json = some payload)
    (ha : payload.access_token.getD "" ≠ "") :
    GApi.saves (GApi.get_storage_quota env).2 = [GApi.refreshed_token tok payload] ∧
    (GApi.refreshed_token tok payload).token = payload.access_token.getD "" ∧
    (∀ nr, payload.refresh_token = some nr → nr ≠ "" →
      (GApi.refreshed_token tok payload).token_secret = nr) ∧
    ((payload.refresh_token = none ∨ payload.refresh_token = some "") →
      (GApi.refreshed_token tok payload).token_secret = tok.token_secret) ∧
    (∀ env2 : GApi.Env, (GApi.saves (GApi.get_storage_quota env2).2).length ≤ 1) := by
  refine ⟨?_, rfl, ?_, ?_, fun env2 => (gsq_trace_bounds env2).2.2⟩
  · rw [gsq_refresh_success_trace env tok r1 r payload hst hqr1 h401 happ hrt htr h200 hj ha]
    rfl
  · intro nr hnr hne
    unfold GApi.refreshed_token
    rw [hnr]
    simp [hne]
  · intro hcase
    unfold GApi.refreshed_token
    rcases hcase with hc | hc
    · rw [hc]
    · rw [hc]
      simp

/-- Witness for C9 on the concrete Scenario C environment (no new refresh
token issued, so the stored one is kept). -/
theorem refresh_single_credential_write_witness :
    GApi.saves (GApi.get_storage_quota gEnvC).2 =
      [GApi.refreshed_token { token := "old", token_secret := "rt" } gPayloadC] ∧
    (GApi.refreshed_token { token := "old", token_secret := "rt" } gPayloadC).token =
      gPayloadC.access_token.getD "" ∧
    ((gPayloadC.refresh_token = none ∨ gPayloadC.refresh_token = some "") →
      (GApi.refreshed_token { token := "old", token_secret := "rt" } gPayloadC).token_secret =
        "rt") := by
  have h := refresh_single_credential_write gEnvC { token := "old", token_secret := "rt" }
    gResp401 gTokRespC gPayloadC rfl rfl rfl rfl (by decide) rfl rfl rfl (by decide)
  exact ⟨h.1, h.2.1, h.2.2.2.1⟩
